import Mathlib

/-!
Verification of "The Prospector" aggregation service and claim registry.

The definitions below are a shallow embedding of the Python sources:
`src/backend/main.py` (search endpoints and the claim registry) and
`src/scraper_service/*.py` (the per-source scrapers and the aggregator).
Pure fragments become Lean functions; the module-level claim storage
becomes an explicit `List Claim` threaded through the operations; Python
exceptions at the adapter boundary become `Except` values.
-/

namespace Prospector

/-- Python string slicing `s[:n]`: the first `n` code points of `s`. -/
def strTrunc (s : String) (n : Nat) : String :=
  String.mk (s.toList.take n)

/-- Substring test on char lists: `needle` occurs contiguously in `hay`
(the semantics of Python `needle in hay`). -/
def listHasSub (hay needle : List Char) : Bool :=
  match hay with
  | [] => needle.isEmpty
  | _ :: rest => needle.isPrefixOf hay || listHasSub rest needle

/-- Python `needle.lower() in hay.lower()` (`str.lower` maps each code
point to its lower-case form). -/
def strLowerHas (hay needle : String) : Bool :=
  listHasSub (hay.toList.map Char.toLower) (needle.toList.map Char.toLower)

/-- Canonical normalized search result (class `SearchResult` in
`backend/main.py`; also the dict shape every scraper produces). -/
structure Result where
  title : String
  description : String
  link : String
  source : String
deriving DecidableEq, Repr

/-- Claim record (class `Claim` in `backend/main.py`). -/
structure Claim where
  id : String
  title : String
  description : String
  source : String
  link : String
  query : String
  timestamp : String
deriving DecidableEq, Repr

/-! ## Scraper service (`src/scraper_service`) -/

/-- A source adapter: on a query it either returns results or raises
(`Except.error` stands for a Python exception escaping the call). -/
abbrev Scraper := String → Except String (List Result)

/-- The module-level scraper bindings of `aggregate_scraper.py`: each is
`none` when its import failed, otherwise the scraper function. -/
structure Scrapers where
  scrape_reddit : Option Scraper
  scrape_twitter : Option Scraper
  scrape_github : Option Scraper
  scrape_etsy : Option Scraper
  scrape_youtube : Option Scraper

/-- One guarded adapter call inside `aggregate_scrape`: skipped when
the module failed to load (`if scrape_x:`), and any exception is caught
(`try/except`) so a failing adapter contributes no results. -/
def callScraper (s : Option Scraper) (query : String) : List Result :=
  match s with
  | none => []
  | some f =>
    match f query with
    | .ok rs => rs
    | .error _ => []

/-- `aggregate_scrape(query)` from `aggregate_scraper.py`: calls each
available scraper in turn, extending `results` with whatever each returns;
no deduplication, filtering or query validation happens here (the dedup
step is only a TODO comment in the source). -/
def aggregate_scrape (S : Scrapers) (query : String) : List Result :=
  callScraper S.scrape_reddit query
    ++ callScraper S.scrape_twitter query
    ++ callScraper S.scrape_github query
    ++ callScraper S.scrape_etsy query
    ++ callScraper S.scrape_youtube query

/-- Names for the five adapter slots of `aggregate_scraper.py`. -/
inductive Adapter
  | reddit | twitter | github | etsy | youtube
deriving DecidableEq, Repr

/-- Read one adapter slot. -/
def getScraper (a : Adapter) (S : Scrapers) : Option Scraper :=
  match a with
  | .reddit => S.scrape_reddit
  | .twitter => S.scrape_twitter
  | .github => S.scrape_github
  | .etsy => S.scrape_etsy
  | .youtube => S.scrape_youtube

/-- Replace one adapter slot. -/
def setScraper (a : Adapter) (v : Option Scraper) (S : Scrapers) : Scrapers :=
  match a with
  | .reddit => { S with scrape_reddit := v }
  | .twitter => { S with scrape_twitter := v }
  | .github => { S with scrape_github := v }
  | .etsy => { S with scrape_etsy := v }
  | .youtube => { S with scrape_youtube := v }

/-! ### Reddit scraper (`reddit_scraper.py`) -/

/-- The fields of a praw submission that `scrape_reddit` reads. -/
structure Submission where
  title : String
  selftext : String
  permalink : String
  stickied : Bool
deriving DecidableEq, Repr

/-- Normalization of one submission inside `scrape_reddit`:
`description` is `selftext[:200]` when the body is non-empty (Python
truthiness), otherwise the title. -/
def redditNormalize (s : Submission) : Result :=
  { title := s.title
    description := if s.selftext ≠ "" then strTrunc s.selftext 200 else s.title
    link := "https://reddit.com" ++ s.permalink
    source := "Reddit" }

/-- The dedup loop of `scrape_reddit` (lines 22–29): walk the results,
keep an element only when its exact title has not been `seen` yet. -/
def dedupByTitle (rs : List Result) (seen : List String) : List Result :=
  match rs with
  | [] => []
  | r :: rest =>
    if r.title ∈ seen then dedupByTitle rest seen
    else r :: dedupByTitle rest (r.title :: seen)

/-- The pure tail of `scrape_reddit`: given the submissions the praw
searches yielded (in order), drop stickied ones, normalize, deduplicate by
exact title, return the first `limit`. -/
def scrape_reddit_pure (subs : List Submission) (limit : Nat) : List Result :=
  (dedupByTitle ((subs.filter (fun s => !s.stickied)).map redditNormalize) []).take limit

/-! ### Twitter scraper (`twitter_scraper.py`) -/

/-- The fields of a tweet that `scrape_twitter` reads. -/
structure Tweet where
  text : String
  id : String
deriving DecidableEq, Repr

/-- Normalization of one tweet inside `scrape_twitter`: the title is
`tweet.text[:80]`, and the description is the full `tweet.text`. -/
def twitterNormalize (t : Tweet) : Result :=
  { title := strTrunc t.text 80
    description := t.text
    link := "https://twitter.com/i/web/status/" ++ t.id
    source := "Twitter/X" }

/-- The pure tail of `scrape_twitter`: normalize every returned tweet in
order (the `limit` is passed to the API, not applied locally). -/
def scrape_twitter_pure (tweets : List Tweet) : List Result :=
  tweets.map twitterNormalize

/-! ## Backend (`src/backend/main.py`) -/

/-- An HTTPException as raised by the endpoints. -/
structure HTTPError where
  status : Nat
  detail : String
deriving DecidableEq, Repr

/-- The keyword match of the search endpoints:
`query.lower() in result["title"].lower() or query.lower() in
result["description"].lower()`. -/
def matchesQuery (query : String) (r : Result) : Bool :=
  strLowerHas r.title query || strLowerHas r.description query

/-- Filter step plus fallback of `search_gamers` / `search_hobbyists`:
keep matching candidates; if nothing matched, fall back to the whole
candidate list. -/
def filterWithFallback (query : String) (cands : List Result) : List Result :=
  let filtered := cands.filter (fun r => matchesQuery query r)
  if filtered.isEmpty then cands else filtered

/-- `DUMMY_GAMER_RESULTS` from `backend/main.py`. -/
def DUMMY_GAMER_RESULTS : List Result :=
  [ { title := "Hidden Indie Gem: Crystal Caves"
      description := "A mesmerizing puzzle-platformer with hand-drawn art. Explore underground caverns filled with mystical crystals."
      link := "https://itch.io/crystal-caves"
      source := "Itch.io" }
  , { title := "Rare Steam Key: Retro Racing Championship"
      description := "Limited edition racing game with only 1000 copies released. Features classic 80s synthwave soundtrack."
      link := "https://steamcommunity.com/retro-racing"
      source := "Steam Community" }
  , { title := "Speedrun Community: Pixel Quest Masters"
      description := "Active speedrunning community for the cult classic Pixel Quest. Weekly tournaments and strategy guides."
      link := "https://reddit.com/r/pixelquest"
      source := "Reddit" }
  , { title := "Beta Access: Neon Knights VR"
      description := "Exclusive beta testing opportunity for upcoming cyberpunk VR adventure. Apply before slots fill up!"
      link := "https://discord.gg/neonknights"
      source := "Discord" } ]

/-- `DUMMY_HOBBYIST_RESULTS` from `backend/main.py`. -/
def DUMMY_HOBBYIST_RESULTS : List Result :=
  [ { title := "Artisan Leather Working Kit"
      description := "Complete starter set with premium tools and exotic leather samples. Perfect for crafting wallets and belts."
      link := "https://etsy.com/leather-kit"
      source := "Etsy" }
  , { title := "Woodworking Workshop: Japanese Joinery"
      description := "Learn traditional Japanese woodworking techniques. Master craftsman teaches 300-year-old methods."
      link := "https://eventbrite.com/japanese-joinery"
      source := "Eventbrite" }
  , { title := "Rare Succulent Seeds Collection"
      description := "Exotic succulent varieties from South Africa. Includes growing guide and soil mix recommendations."
      link := "https://rareplants.shop/succulents"
      source := "Specialty Shop" }
  , { title := "Blacksmithing Tutorial Series"
      description := "Complete video course on traditional blacksmithing. From basic tools to advanced decorative techniques."
      link := "https://youtube.com/blacksmith-master"
      source := "YouTube" } ]

/-- `search_gamers(query)`: HTTP 400 on an empty query, otherwise the
filtered (with fallback) gamer dummy results. -/
def search_gamers (query : String) : Except HTTPError (List Result) :=
  if query = "" then .error ⟨400, "Query parameter is required"⟩
  else .ok (filterWithFallback query DUMMY_GAMER_RESULTS)

/-- `search_hobbyists(query)`: HTTP 400 on an empty query, otherwise the
filtered (with fallback) hobbyist dummy results. -/
def search_hobbyists (query : String) : Except HTTPError (List Result) :=
  if query = "" then .error ⟨400, "Query parameter is required"⟩
  else .ok (filterWithFallback query DUMMY_HOBBYIST_RESULTS)

/-! ### Claim registry (`claims_storage` plus its three endpoints) -/

/-- `get_claims()`: the whole storage, in insertion order. -/
def get_claims (st : List Claim) : List Claim := st

/-- `create_claim(claim)`: append to storage and return the claim
unchanged (first component: return value; second: new storage). -/
def create_claim (c : Claim) (st : List Claim) : Claim × List Claim :=
  (c, st ++ [c])

/-- `delete_claim(claim_id)`: keep exactly the claims whose id differs. -/
def delete_claim (i : String) (st : List Claim) : List Claim :=
  st.filter (fun c => c.id != i)

/-! ## Helper lemmas -/

theorem strTrunc_length_le (s : String) (n : Nat) : (strTrunc s n).length ≤ n := by
  simp only [strTrunc, String.length_mk, List.length_take]
  exact min_le_left _ _

theorem dedupByTitle_sublist (rs : List Result) :
    ∀ seen, (dedupByTitle rs seen).Sublist rs := by
  induction rs with
  | nil => intro seen; simp [dedupByTitle]
  | cons a rest ih =>
    intro seen
    simp only [dedupByTitle]
    by_cases h : a.title ∈ seen
    · rw [if_pos h]
      exact (ih seen).cons a
    · rw [if_neg h]
      exact (ih (a.title :: seen)).cons₂ a

theorem dedupByTitle_not_seen (rs : List Result) :
    ∀ seen r, r ∈ dedupByTitle rs seen → r.title ∉ seen := by
  induction rs with
  | nil => intro seen r h; simp [dedupByTitle] at h
  | cons a rest ih =>
    intro seen r h
    simp only [dedupByTitle] at h
    by_cases ha : a.title ∈ seen
    · rw [if_pos ha] at h
      exact ih seen r h
    · rw [if_neg ha] at h
      rcases List.mem_cons.mp h with h1 | h2
      · subst h1; exact ha
      · intro hs
        exact ih _ r h2 (List.mem_cons_of_mem _ hs)

theorem dedupByTitle_nodup (rs : List Result) :
    ∀ seen, ((dedupByTitle rs seen).map Result.title).Nodup := by
  induction rs with
  | nil => intro seen; simp [dedupByTitle]
  | cons a rest ih =>
    intro seen
    simp only [dedupByTitle]
    by_cases ha : a.title ∈ seen
    · rw [if_pos ha]; exact ih seen
    · rw [if_neg ha]
      simp only [List.map_cons, List.nodup_cons]
      refine ⟨?_, ih _⟩
      intro hmem
      rcases List.mem_map.mp hmem with ⟨r, hr, ht⟩
      apply dedupByTitle_not_seen rest (a.title :: seen) r hr
      rw [ht]
      exact List.mem_cons_self _ _

theorem dedupByTitle_keeps_first (l₁ : List Result) :
    ∀ (seen : List String) (r : Result) (l₂ : List Result),
      r.title ∉ l₁.map Result.title → r.title ∉ seen →
      r ∈ dedupByTitle (l₁ ++ r :: l₂) seen := by
  induction l₁ with
  | nil =>
    intro seen r l₂ _ hseen
    simp only [List.nil_append, dedupByTitle, if_neg hseen]
    exact List.mem_cons_self _ _
  | cons a rest ih =>
    intro seen r l₂ hmap hseen
    simp only [List.map_cons, List.mem_cons, not_or] at hmap
    obtain ⟨hne, hmap'⟩ := hmap
    simp only [List.cons_append, dedupByTitle]
    by_cases ha : a.title ∈ seen
    · rw [if_pos ha]
      exact ih seen r l₂ hmap' hseen
    · rw [if_neg ha]
      refine List.mem_cons_of_mem _ ?_
      apply ih (a.title :: seen) r l₂ hmap'
      intro h
      rcases List.mem_cons.mp h with h1 | h2
      · exact hne h1
      · exact hseen h2

theorem filterWithFallback_def (q : String) (cands : List Result) :
    filterWithFallback q cands =
      if (cands.filter (fun r => matchesQuery q r)).isEmpty then cands
      else cands.filter (fun r => matchesQuery q r) := rfl

theorem filterWithFallback_sublist (q : String) (cands : List Result) :
    (filterWithFallback q cands).Sublist cands := by
  rw [filterWithFallback_def]
  split
  · exact List.Sublist.refl _
  · exact List.filter_sublist _

theorem filterWithFallback_ne_nil (q : String) (cands : List Result) (h : cands ≠ []) :
    filterWithFallback q cands ≠ [] := by
  rw [filterWithFallback_def]
  split
  · exact h
  · rename_i hcond
    simpa [List.isEmpty_iff] using hcond

theorem sublist_append_mid {α : Type} (x : List α) {l y : List α}
    (h : l.Sublist y) : l.Sublist (x ++ y) :=
  h.trans (List.sublist_append_right x y)

/-! ## Concrete fixtures used by counterexamples and witnesses -/

/-- A Reddit-sourced result titled "A". -/
def fixtureRedditA : Result :=
  { title := "A", description := "d1", link := "l1", source := "Reddit" }

/-- A Twitter-sourced result with the same title "A". -/
def fixtureTwitterA : Result :=
  { title := "A", description := "d2", link := "l2", source := "Twitter/X" }

/-- Scrapers where Reddit and Twitter each return one result titled "A". -/
def fixtureScrapers : Scrapers :=
  { scrape_reddit := some (fun _ => .ok [fixtureRedditA])
    scrape_twitter := some (fun _ => .ok [fixtureTwitterA])
    scrape_github := none
    scrape_etsy := none
    scrape_youtube := none }

/-- Scrapers with every import failed. -/
def noScrapers : Scrapers :=
  { scrape_reddit := none, scrape_twitter := none, scrape_github := none
    scrape_etsy := none, scrape_youtube := none }

/-! ## Claims -/

/-- C1 counterexample: with the non-empty query "x", two adapters each
returning a (deduplicated) result titled "A" make `aggregate_scrape`
return a sequence whose titles are not unique: the aggregation call
itself never deduplicates across adapters. -/
theorem aggregate_titles_can_repeat :
    "x" ≠ "" ∧ ¬ ((aggregate_scrape fixtureScrapers "x").map Result.title).Nodup := by
  constructor
  · decide
  · rw [show (aggregate_scrape fixtureScrapers "x").map Result.title = ["A", "A"] from rfl]
    decide

/-- C1 (amended): deduplication by exact case-sensitive title equality
happens only inside the Reddit adapter: the titles of
`scrape_reddit`'s output are pairwise distinct, the dedup step keeps a
subsequence of its input, and it keeps the first occurrence of a title
(so later duplicates are the ones dropped); `aggregate_scrape` itself
performs no cross-adapter deduplication. -/
theorem reddit_dedup_unique_titles (subs : List Submission) (limit : Nat)
    (rs l₁ l₂ : List Result) (r : Result) :
    ((scrape_reddit_pure subs limit).map Result.title).Nodup ∧
    (dedupByTitle rs []).Sublist rs ∧
    (rs = l₁ ++ r :: l₂ → r.title ∉ l₁.map Result.title →
      r ∈ dedupByTitle rs []) := by
  refine ⟨?_, dedupByTitle_sublist rs [], ?_⟩
  · unfold scrape_reddit_pure
    rw [List.map_take]
    exact (List.take_sublist _ _).nodup (dedupByTitle_nodup _ [])
  · intro hrs hmap
    rw [hrs]
    exact dedupByTitle_keeps_first l₁ [] r l₂ hmap (by simp)

/-- C1 witness: the amended dedup facts at a concrete input: two
results both titled "A" collapse to the first one. -/
theorem reddit_dedup_unique_titles_witness :
    ((scrape_reddit_pure [] 30).map Result.title).Nodup ∧
    (dedupByTitle [fixtureRedditA, fixtureTwitterA] []).Sublist
      [fixtureRedditA, fixtureTwitterA] ∧
    fixtureRedditA ∈ dedupByTitle [fixtureRedditA, fixtureTwitterA] [] := by
  have h := reddit_dedup_unique_titles [] 30 [fixtureRedditA, fixtureTwitterA]
    [] [fixtureTwitterA] fixtureRedditA
  exact ⟨h.1, h.2.1, h.2.2 rfl (by decide)⟩

/-- C3: a failing adapter is isolated: if the adapter in any slot raises,
`aggregate_scrape` returns exactly what it returns with that slot
disabled — the failure contributes zero results, the other adapters'
results are all kept, and no error propagates (the embedding of
`aggregate_scrape` is total: every exception is caught at the per-adapter
`try`). -/
theorem aggregate_isolates_failure (a : Adapter) (S : Scrapers) (q : String)
    (f : Scraper) (e : String) (h : f q = .error e) :
    aggregate_scrape (setScraper a (some f) S) q
      = aggregate_scrape (setScraper a none S) q := by
  have hc : callScraper (some f) q = [] := by simp [callScraper, h]
  cases a <;> simp [aggregate_scrape, setScraper, hc, callScraper, h]

/-- C3 witness: a raising Reddit adapter behaves like a disabled one. -/
theorem aggregate_isolates_failure_witness :
    aggregate_scrape (setScraper .reddit (some (fun _ => .error "boom")) fixtureScrapers) "x"
      = aggregate_scrape (setScraper .reddit none fixtureScrapers) "x" :=
  aggregate_isolates_failure .reddit fixtureScrapers "x" (fun _ => .error "boom") "boom" rfl

/-- C9: within-adapter order is preserved: whatever one adapter
successfully returns occurs as a subsequence (hence in its original
relative order) of the merged sequence `aggregate_scrape` returns. -/
theorem aggregate_preserves_adapter_order (a : Adapter) (S : Scrapers)
    (q : String) (f : Scraper) (rs : List Result)
    (hget : getScraper a S = some f) (hok : f q = .ok rs) :
    rs.Sublist (aggregate_scrape S q) := by
  have hc : callScraper (getScraper a S) q = rs := by
    rw [hget]; simp [callScraper, hok]
  cases a <;> simp only [getScraper] at hc <;>
    simp only [aggregate_scrape, List.append_assoc]
  case reddit =>
    rw [← hc]
    exact List.sublist_append_left _ _
  case twitter =>
    rw [← hc]
    exact sublist_append_mid _ (List.sublist_append_left _ _)
  case github =>
    rw [← hc]
    exact sublist_append_mid _ (sublist_append_mid _ (List.sublist_append_left _ _))
  case etsy =>
    rw [← hc]
    exact sublist_append_mid _ (sublist_append_mid _
      (sublist_append_mid _ (List.sublist_append_left _ _)))
  case youtube =>
    rw [← hc]
    exact sublist_append_mid _ (sublist_append_mid _
      (sublist_append_mid _ (sublist_append_mid _ (List.Sublist.refl _))))

/-- C9 witness: the Twitter adapter's single result occurs, in order,
in the merged output of the fixture scrapers. -/
theorem aggregate_preserves_adapter_order_witness :
    List.Sublist [fixtureTwitterA] (aggregate_scrape fixtureScrapers "x") :=
  aggregate_preserves_adapter_order .twitter fixtureScrapers "x"
    (fun _ => .ok [fixtureTwitterA]) [fixtureTwitterA] rfl rfl

/-- A short fixture result whose title matches query "ab" (case folded)
and matches neither "zz" nor anything in it. -/
def fixtureShort : Result :=
  { title := "Ab", description := "d", link := "l", source := "s" }

/-- C2: the query filter of the search endpoints retains exactly the
candidates whose title or description contains the query
case-insensitively (in candidate order); when nothing matches, the
fallback returns the full candidate list; and for every non-empty query
both endpoints return exactly this filtered-with-fallback list over
their dummy candidates. -/
theorem filter_retains_matches_else_fallback (query : String) (cands : List Result) :
    ((∃ r ∈ cands, matchesQuery query r) →
      filterWithFallback query cands = cands.filter (fun r => matchesQuery query r)) ∧
    ((∀ r ∈ cands, ¬ matchesQuery query r) →
      filterWithFallback query cands = cands) ∧
    (query ≠ "" →
      search_gamers query = .ok (filterWithFallback query DUMMY_GAMER_RESULTS) ∧
      search_hobbyists query = .ok (filterWithFallback query DUMMY_HOBBYIST_RESULTS)) := by
  refine ⟨?_, ?_, ?_⟩
  · rintro ⟨r, hr, hm⟩
    have hne : cands.filter (fun x => matchesQuery query x) ≠ [] :=
      List.ne_nil_of_mem (List.mem_filter.mpr ⟨hr, hm⟩)
    rw [filterWithFallback_def, if_neg (by simpa [List.isEmpty_iff] using hne)]
  · intro hnone
    have hnil : cands.filter (fun x => matchesQuery query x) = [] :=
      List.filter_eq_nil_iff.mpr hnone
    rw [filterWithFallback_def, if_pos (by simp [List.isEmpty_iff, hnil])]
  · intro hq
    constructor <;> simp [search_gamers, search_hobbyists, hq]

/-- C2 witness: with candidate list `[fixtureShort]`, query "ab" matches
and is retained; query "zz" matches nothing and falls back to the full
list; and `search_gamers "ab"` returns the filtered dummy list. -/
theorem filter_retains_matches_else_fallback_witness :
    filterWithFallback "ab" [fixtureShort]
        = List.filter (fun r => matchesQuery "ab" r) [fixtureShort] ∧
    filterWithFallback "zz" [fixtureShort] = [fixtureShort] ∧
    search_gamers "ab" = .ok (filterWithFallback "ab" DUMMY_GAMER_RESULTS) := by
  refine ⟨(filter_retains_matches_else_fallback "ab" [fixtureShort]).1
      ⟨fixtureShort, ?_, ?_⟩,
    (filter_retains_matches_else_fallback "zz" [fixtureShort]).2.1 ?_,
    ((filter_retains_matches_else_fallback "ab" []).2.2 (by decide)).1⟩
  · exact List.mem_singleton.mpr rfl
  · decide
  · decide

/-- C4: an empty query makes both search endpoints fail with the HTTP 400
client error (and no result list); a non-empty query never produces that
error — both endpoints then return a result list. -/
theorem empty_query_rejected :
    search_gamers "" = .error ⟨400, "Query parameter is required"⟩ ∧
    search_hobbyists "" = .error ⟨400, "Query parameter is required"⟩ ∧
    (∀ q : String, q ≠ "" →
      (∃ rs, search_gamers q = .ok rs) ∧ (∃ rs, search_hobbyists q = .ok rs)) := by
  refine ⟨rfl, rfl, ?_⟩
  intro q hq
  exact ⟨⟨filterWithFallback q DUMMY_GAMER_RESULTS, by simp [search_gamers, hq]⟩,
    ⟨filterWithFallback q DUMMY_HOBBYIST_RESULTS, by simp [search_hobbyists, hq]⟩⟩

/-- C4 witness: the non-empty query "gold" is not rejected. -/
theorem empty_query_rejected_witness :
    (∃ rs, search_gamers "gold" = .ok rs) ∧ (∃ rs, search_hobbyists "gold" = .ok rs) :=
  empty_query_rejected.2.2 "gold" (by decide)

/-- C10: for every non-empty query, each search endpoint returns a
non-empty list of at most 4 results, each taken from its fixed dummy
list (the fallback makes an empty response impossible). -/
theorem endpoints_never_empty (q : String) (hq : q ≠ "") :
    (∃ rs, search_gamers q = .ok rs ∧ rs ≠ [] ∧ rs.length ≤ 4 ∧
      ∀ r ∈ rs, r ∈ DUMMY_GAMER_RESULTS) ∧
    (∃ rs, search_hobbyists q = .ok rs ∧ rs ≠ [] ∧ rs.length ≤ 4 ∧
      ∀ r ∈ rs, r ∈ DUMMY_HOBBYIST_RESULTS) := by
  constructor
  · refine ⟨filterWithFallback q DUMMY_GAMER_RESULTS,
      by simp [search_gamers, hq], ?_, ?_, ?_⟩
    · exact filterWithFallback_ne_nil q _ (by simp [DUMMY_GAMER_RESULTS])
    · have hlen := (filterWithFallback_sublist q DUMMY_GAMER_RESULTS).length_le
      have h4 : DUMMY_GAMER_RESULTS.length = 4 := rfl
      omega
    · intro r hr
      exact (filterWithFallback_sublist q DUMMY_GAMER_RESULTS).subset hr
  · refine ⟨filterWithFallback q DUMMY_HOBBYIST_RESULTS,
      by simp [search_hobbyists, hq], ?_, ?_, ?_⟩
    · exact filterWithFallback_ne_nil q _ (by simp [DUMMY_HOBBYIST_RESULTS])
    · have hlen := (filterWithFallback_sublist q DUMMY_HOBBYIST_RESULTS).length_le
      have h4 : DUMMY_HOBBYIST_RESULTS.length = 4 := rfl
      omega
    · intro r hr
      exact (filterWithFallback_sublist q DUMMY_HOBBYIST_RESULTS).subset hr

/-- C10 witness: the bounds at the concrete query "x". -/
theorem endpoints_never_empty_witness :
    (∃ rs, search_gamers "x" = .ok rs ∧ rs ≠ [] ∧ rs.length ≤ 4 ∧
      ∀ r ∈ rs, r ∈ DUMMY_GAMER_RESULTS) ∧
    (∃ rs, search_hobbyists "x" = .ok rs ∧ rs ≠ [] ∧ rs.length ≤ 4 ∧
      ∀ r ∈ rs, r ∈ DUMMY_HOBBYIST_RESULTS) :=
  endpoints_never_empty "x" (by decide)

/-- A tweet whose text is 201 characters long. -/
def longTweet : Tweet :=
  { text := String.mk (List.replicate 201 'a'), id := "1" }

/-- C5 counterexample: the Twitter adapter copies the full 201-character
tweet text into `description` — no truncation to 200 happens there. -/
theorem twitter_description_untruncated :
    (twitterNormalize longTweet).description = longTweet.text ∧
    200 < (twitterNormalize longTweet).description.length := by
  refine ⟨rfl, ?_⟩
  rw [show (twitterNormalize longTweet).description.length = 201 from rfl]
  decide

/-- C5 (amended): only the Reddit adapter truncates free-form text for
`description`, and only when the post body is non-empty (an empty body
makes the untruncated title the description); the Twitter adapter
truncates the title to 80 characters but carries the full tweet text as
`description`. -/
theorem description_truncation (s : Submission) (hs : s.selftext ≠ "") (t : Tweet) :
    (redditNormalize s).description = strTrunc s.selftext 200 ∧
    (redditNormalize s).description.length ≤ 200 ∧
    (twitterNormalize t).title = strTrunc t.text 80 ∧
    (twitterNormalize t).title.length ≤ 80 ∧
    (twitterNormalize t).description = t.text := by
  have hd : (redditNormalize s).description = strTrunc s.selftext 200 := by
    simp [redditNormalize, hs]
  exact ⟨hd, hd ▸ strTrunc_length_le s.selftext 200,
    rfl, strTrunc_length_le t.text 80, rfl⟩

/-- C5 witness: the truncation facts at a concrete submission and tweet. -/
theorem description_truncation_witness :
    (redditNormalize ⟨"t", "body", "/p", false⟩).description = strTrunc "body" 200 ∧
    (redditNormalize ⟨"t", "body", "/p", false⟩).description.length ≤ 200 ∧
    (twitterNormalize ⟨"hello", "2"⟩).title = strTrunc "hello" 80 ∧
    (twitterNormalize ⟨"hello", "2"⟩).title.length ≤ 80 ∧
    (twitterNormalize ⟨"hello", "2"⟩).description = "hello" :=
  description_truncation ⟨"t", "body", "/p", false⟩ (by decide) ⟨"hello", "2"⟩

/-- A concrete claim with id "1" and title "X". -/
def claimX : Claim :=
  { id := "1", title := "X", description := "dx", source := "sx"
    link := "lx", query := "qx", timestamp := "tx" }

/-- A concrete claim with the same id "1" but title "Y". -/
def claimY : Claim :=
  { id := "1", title := "Y", description := "dy", source := "sy"
    link := "ly", query := "qy", timestamp := "ty" }

/-- C6: `create_claim` performs no id-uniqueness check: creating two
claims with equal ids (whatever their other fields) from any starting
storage appends both, and a subsequent list shows both entries. -/
theorem duplicate_ids_coexist (c₁ c₂ : Claim) (st : List Claim)
    (_h : c₁.id = c₂.id) :
    get_claims (create_claim c₂ (create_claim c₁ st).2).2 = st ++ [c₁, c₂] := by
  simp [get_claims, create_claim]

/-- C6 witness: the spec scenario — id "1"/"X" then id "1"/"Y" — yields
a two-entry list. -/
theorem duplicate_ids_coexist_witness :
    get_claims (create_claim claimY (create_claim claimX []).2).2 = [claimX, claimY] :=
  duplicate_ids_coexist claimX claimY [] rfl

/-- C7 counterexample: with a storage that already holds the claim,
`create_claim` followed by a list yields the claim twice, not exactly
once — the claimed property fails for that registry state. -/
theorem create_duplicate_occurrence :
    List.count claimX (get_claims (create_claim claimX [claimX]).2) = 2 ∧
    ¬ List.count claimX (get_claims (create_claim claimX [claimX]).2) = 1 := by
  constructor <;> decide

/-- C7 (amended): `create_claim` returns the claim unchanged and appends
it, a subsequent list shows all stored claims in insertion order, the
created claim occurs exactly once more than before — hence exactly once
whenever it was not already stored. -/
theorem create_appends_and_returns (c : Claim) (st : List Claim) :
    (create_claim c st).1 = c ∧
    get_claims (create_claim c st).2 = st ++ [c] ∧
    List.count c (get_claims (create_claim c st).2) = List.count c st + 1 ∧
    (c ∉ st → List.count c (get_claims (create_claim c st).2) = 1) := by
  refine ⟨rfl, rfl, ?_, ?_⟩
  · simp [get_claims, create_claim, List.count_append]
  · intro hmem
    simp [get_claims, create_claim, List.count_append,
      List.count_eq_zero_of_not_mem hmem]

/-- C7 witness: creating into the empty storage yields exactly one
occurrence. -/
theorem create_appends_and_returns_witness :
    (create_claim claimX []).1 = claimX ∧
    List.count claimX (get_claims (create_claim claimX []).2) = 1 :=
  ⟨(create_appends_and_returns claimX []).1,
    (create_appends_and_returns claimX []).2.2.2 (by decide)⟩

/-- C8: `delete_claim` removes exactly the claims whose id equals the
argument: no claim with that id survives, the survivors are a
subsequence of the old storage (their relative order unchanged), any
claim with a different id keeps its multiplicity, and when nothing
matches the storage is returned unchanged (no error in any case — the
operation is total). -/
theorem delete_removes_exactly_id (i : String) (st : List Claim) :
    (∀ c ∈ delete_claim i st, c.id ≠ i) ∧
    (delete_claim i st).Sublist st ∧
    (∀ c : Claim, c.id ≠ i →
      List.count c (delete_claim i st) = List.count c st) ∧
    ((∀ c ∈ st, c.id ≠ i) → delete_claim i st = st) := by
  refine ⟨?_, List.filter_sublist st, ?_, ?_⟩
  · intro c hc
    have := (List.mem_filter.mp hc).2
    exact bne_iff_ne.mp this
  · intro c hc
    exact List.count_filter (bne_iff_ne.mpr hc)
  · intro hall
    apply List.filter_eq_self.mpr
    intro c hc
    exact bne_iff_ne.mpr (hall c hc)

/-- C8 witness: deleting id "2" from a storage holding only id "1"
leaves it unchanged, with the multiplicity of the stored claim intact. -/
theorem delete_removes_exactly_id_witness :
    (∀ c ∈ delete_claim "2" [claimX], c.id ≠ "2") ∧
    List.count claimX (delete_claim "2" [claimX]) = List.count claimX [claimX] ∧
    delete_claim "2" [claimX] = [claimX] :=
  ⟨(delete_removes_exactly_id "2" [claimX]).1,
    (delete_removes_exactly_id "2" [claimX]).2.2.1 claimX (by decide),
    (delete_removes_exactly_id "2" [claimX]).2.2.2 (by decide)⟩

end Prospector
